import Mathlib

/-!
# Verification of the laserTest sweep-to-grid planner

Shallow embedding of `laserTest.py`.  Python floats are modelled as
rationals (`ℚ`), Python ints as `ℤ`; `round(x, 2)` is modelled as
`round (x * 100) / 100` (Mathlib's `round`, which differs from Python's
banker's rounding only at exact midpoints — no statement below depends on
a midpoint).  Fallible constructors are modelled in `Except String`,
carrying the exact message strings the Python code raises (with the
numeric constants interpolated the way `str.format` renders them, e.g.
`0.0` for the float `0.0`).
-/

namespace LaserTest

/-- `round(x, 2)` of the Python source: round to two decimal places. -/
def round2 (x : ℚ) : ℚ := (round (x * 100) : ℚ) / 100

/-! ## Input-string parsing

`Dimension.__init__` does `inputStr.split(',')` into exactly two parts,
splits the first on `':'` into exactly two parts, and applies `float`,
`float`, `int`.  The split is modelled character-exactly; `float`/`int`
are modelled on plain (optionally signed) decimal literals, which is the
input grammar the tool documents (`<min>:<max>,<cnt>`). -/

/-- Python `str.split(sep)` on a single-character separator
(`"".split -> [""]`, separators at the ends give empty pieces). -/
def splitOnChar (sep : Char) : List Char → List (List Char)
  | [] => [[]]
  | ch :: rest =>
    let r := splitOnChar sep rest
    if ch = sep then [] :: r
    else
      match r with
      | h :: t => (ch :: h) :: t
      | [] => [[ch]]

/-- Value of a decimal digit character. -/
def digitVal (ch : Char) : ℕ := ch.toNat - 48

/-- Accumulate a digit string into a natural number. -/
def natOfDigits (l : List Char) : ℕ := l.foldl (fun a ch => a * 10 + digitVal ch) 0

/-- Strip one optional leading sign, returning the sign as `1` or `-1`. -/
def stripSign : List Char → ℤ × List Char
  | '+' :: rest => (1, rest)
  | '-' :: rest => (-1, rest)
  | l => (1, l)

/-- Python `int(s)` on an optionally signed digit string. -/
def parseIntStr (s : List Char) : Option ℤ :=
  let (sgn, l) := stripSign s
  if l.isEmpty then none
  else if l.all Char.isDigit then some (sgn * natOfDigits l)
  else none

/-- Python `float(s)` on an optionally signed decimal literal
(`"5"`, `"5."`, `".5"`, `"5.25"`). -/
def parseFloatStr (s : List Char) : Option ℚ :=
  let (sgn, l) := stripSign s
  match splitOnChar '.' l with
  | [ip] =>
    if ip.isEmpty then none
    else if ip.all Char.isDigit then some ((sgn : ℚ) * natOfDigits ip)
    else none
  | [ip, fp] =>
    if ip.isEmpty && fp.isEmpty then none
    else if ip.all Char.isDigit && fp.all Char.isDigit then
      some ((sgn : ℚ) * ((natOfDigits ip : ℚ) + (natOfDigits fp : ℚ) / 10 ^ fp.length))
    else none
  | _ => none

/-- The parsing phase of `Dimension.__init__` (lines 177-181):
`rangeStr, countStr = inputStr.split(',')`, `minStr, maxStr = rangeStr.split(":")`,
then `float(minStr)`, `float(maxStr)`, `int(countStr)`. -/
def parseTriple (s : String) : Option (ℚ × ℚ × ℤ) :=
  match splitOnChar ',' s.data with
  | [rangeStr, countStr] =>
    match splitOnChar ':' rangeStr with
    | [minStr, maxStr] => do
      let mn ← parseFloatStr minStr
      let mx ← parseFloatStr maxStr
      let c ← parseIntStr countStr
      pure (mn, mx, c)
    | _ => none
  | _ => none

/-! ## Dimension -/

/-- State of one test dimension (`Dimension` of the source).
Note the base-class `__init__` runs after the subclass sets `self.name`,
so the final `name` is always `"UNINITIALIZED"`. -/
structure Dimension where
  name : String
  minVal : ℚ
  maxVal : ℚ
  count : ℤ
  incr : ℚ
  fixed : Bool
  indx : ℤ
  val : ℚ
deriving DecidableEq

/-- The body of `Dimension.__init__` after a successful parse
(lines 184-193): the inconsistency case only writes a warning to stderr,
`incr` is set from the range when `count > 1`, `fixed` is
`count == 1 or minVal == maxVal`, and `reset()` sets the cursor.
There is no validation of `count` itself. -/
def dimInitCore (mn mx : ℚ) (c : ℤ) : Dimension :=
  { name := "UNINITIALIZED"
    minVal := mn
    maxVal := mx
    count := c
    incr := if 1 < c then (mx - mn) / ((c : ℚ) - 1) else 0
    fixed := c == 1 || mn == mx
    indx := 0
    val := mn }

/-- The non-fatal stderr warning condition of `Dimension.__init__`
(lines 184-187). -/
def dimWarning (mn mx : ℚ) (c : ℤ) : Bool :=
  (mn == mx && c != 1) || (mn != mx && c == 1)

/-- `Dimension.__init__` (lines 173-193): parse failures propagate as an
error; any successfully parsed triple constructs. -/
def dimInit (s : String) : Except String Dimension :=
  match parseTriple s with
  | none => .error "invalid input string"
  | some (mn, mx, c) => .ok (dimInitCore mn mx c)

/-- `Dimension.reset` (lines 195-201). -/
def Dimension.reset (d : Dimension) : Dimension :=
  { d with indx := 0, val := d.minVal }

/-- The value formula of `Dimension.next` at index `i` (lines 218-219):
`round(((indx * ((maxVal - minVal) / (count - 1))) + minVal), 2)`. -/
def valAt (mn mx : ℚ) (c : ℤ) (i : ℤ) : ℚ :=
  round2 ((i * ((mx - mn) / ((c : ℚ) - 1))) + mn)

/-- `Dimension.next` (lines 203-220): a fixed dimension returns `minVal`
without advancing; otherwise the index is bumped, `ValueError` is raised
if it reaches `count`, and the value is recomputed from the index. -/
def Dimension.next (d : Dimension) : Except String (ℚ × Dimension) :=
  if d.fixed then .ok (d.minVal, d)
  else
    let indx := d.indx + 1
    if d.count ≤ indx then .error "Asked for too many next values"
    else
      let v := valAt d.minVal d.maxVal d.count indx
      .ok (v, { d with indx := indx, val := v })

/-- The state produced by one successful advancing `next()` call: index
bumped and value recomputed (the `.ok` payload state of `Dimension.next`
in the non-fixed case). -/
def Dimension.advanced (d : Dimension) : Dimension :=
  { d with indx := d.indx + 1, val := valAt d.minVal d.maxVal d.count (d.indx + 1) }

/-- `n` successive calls of `Dimension.next`, collecting the returned
values and the final state. -/
def nextN : ℕ → Dimension → Except String (List ℚ × Dimension)
  | 0, d => .ok ([], d)
  | n + 1, d =>
    match d.next with
    | .error e => .error e
    | .ok (v, d1) =>
      match nextN n d1 with
      | .error e => .error e
      | .ok (vs, d2) => .ok (v :: vs, d2)

/-! ## Machine constants (`Shapeoko2` and `TestParams` class attributes) -/

def MIN_XY_SPEED : ℚ := 100
def MAX_XY_SPEED : ℚ := 5000
def MIN_POWER : ℚ := 0
def MAX_POWER : ℚ := 10000
def MIN_Z_DISTANCE : ℚ := 10

/-- `MAX_Z_DISTANCE` is assigned twice in the `Shapeoko2` class body:
`100.0` at line 310 and `50.0` at line 323; Python's second assignment
wins, so the attribute the program uses is `50.0`. -/
def MAX_Z_DISTANCE : ℚ := 50
def MAX_X_DISTANCE : ℚ := 150
def MAX_Y_DISTANCE : ℚ := 150
def KERF : ℚ := 2 / 10
def MIN_X_SPACING : ℚ := 1
def MAX_X_SPACING : ℚ := 10
def MIN_Y_SPACING : ℚ := 5
def MAX_Y_SPACING : ℚ := 10
def DEF_LINE_HEIGHT : ℚ := 20

/-! ## Domain-bounded dimensions

Each subclass constructor runs the base `__init__` (which parses and, as
noted above, resets `name` to `"UNINITIALIZED"`), then checks the domain
bounds in order, raising `InputArgumentError` with the messages below.
The interpolated limits are rendered as Python's `str.format` renders the
float constants.  N.B. line 270 of the source interpolates
`TestParams.MIN_POWER` into the maximum-power message, so that message
reads `(> 0.0)`. -/

/-- `SpeedDim.__init__` (lines 237-248). -/
def speedDimInit (s : String) : Except String Dimension :=
  match dimInit s with
  | .error e => .error e
  | .ok d =>
    if d.minVal < MIN_XY_SPEED then .error "Minimum speed to slow (< 100.0)"
    else if MAX_XY_SPEED < d.maxVal then .error "Maximum speed to fast (> 5000.0)"
    else .ok d

/-- `PowerDim.__init__` (lines 259-270).  The max-too-high message
interpolates `TestParams.MIN_POWER` (a slip in the source), hence
`(> 0.0)`. -/
def powerDimInit (s : String) : Except String Dimension :=
  match dimInit s with
  | .error e => .error e
  | .ok d =>
    if d.minVal < MIN_POWER then .error "Minimum power too low (< 0.0)"
    else if MAX_POWER < d.maxVal then .error "Maximum power too high (> 0.0)"
    else .ok d

/-- `DistanceDim.__init__` (lines 278-289).  The maximum checked (and
rendered in the message) is the effective `MAX_Z_DISTANCE = 50.0`, the
second of the two class-body assignments. -/
def distanceDimInit (s : String) : Except String Dimension :=
  match dimInit s with
  | .error e => .error e
  | .ok d =>
    if d.minVal < MIN_Z_DISTANCE then .error "Minimum distance too close (< 10.0)"
    else if MAX_Z_DISTANCE < d.maxVal then .error "Maximum distance too far (> 50.0)"
    else .ok d

/-! ## TestParams: the sweep-to-grid planner -/

/-- Identity of one of the three dimension attributes of a `TestParams`
object.  Python compares the dimension objects by identity
(`dim != self.xDim`); the three attributes are distinct objects, which
these tags model. -/
inductive DimId where
  | speed
  | power
  | distance
deriving DecidableEq

/-- Pick one of three dimensions by tag. -/
def dimSelect (s p d : Dimension) : DimId → Dimension
  | .speed => s
  | .power => p
  | .distance => d

/-- Python's `max(items, key=lambda item: item.count)` starting from a
first element: the running maximum is replaced only on a strictly larger
count, so the first element with the maximal count wins. -/
def pyMaxByCount (best : DimId × Dimension) :
    List (DimId × Dimension) → DimId × Dimension
  | [] => best
  | q :: rest => pyMaxByCount (if best.2.count < q.2.count then q else best) rest

/-- Axis assignment of `TestParams.__init__` (lines 358-388): classify
fixed/variable, reject three variable dimensions, otherwise choose
`(xDim, yDim, numRows, numCols)`.  The `"unreachable"` arms model Python
crashes on list states the branch guards exclude. -/
def planAxes (s p d : Dimension) :
    Except String (Option DimId × Option DimId × ℤ × ℤ) :=
  let dims : List (DimId × Dimension) := [(.speed, s), (.power, p), (.distance, d)]
  let numDims : ℤ := 3
  let varDims := dims.filter (fun q => !q.2.fixed)
  let numFixedDims : ℤ := (if s.fixed then 1 else 0) + (if p.fixed then 1 else 0) +
    (if d.fixed then 1 else 0)
  let numVarDims := numDims - numFixedDims
  if numDims ≤ numVarDims then
    .error "Too many free dimensions, at least one must be fixed"
  else if numVarDims < 2 then
    if numVarDims == 1 then
      match varDims with
      | q :: _ => .ok (some q.1, none, 1, q.2.count)
      | [] => .error "unreachable: varDims[0] on an empty list"
    else
      .ok (none, none, 1, 1)
  else
    match varDims with
    | q :: qs =>
      let xq := pyMaxByCount q qs
      match varDims.filter (fun r => decide (r.1 ≠ xq.1)) with
      | yq :: _ => .ok (some xq.1, some yq.1, yq.2.count, xq.2.count)
      | [] => .error "unreachable: no second variable dimension"
    | [] => .error "unreachable: empty varDims with two variable dimensions"

/-- Column-spacing computation of `TestParams.__init__` (lines 390-399):
`xIncr = 0` for at most one column, otherwise `MAX_X_DISTANCE/(numCols-1)`,
failing when the kerf-adjusted spacing is below `MIN_X_SPACING` and
clamping down to `MAX_X_SPACING`. -/
def planXIncr (numCols : ℤ) (xName : String) : Except String ℚ :=
  if numCols ≤ 1 then .ok 0
  else
    let x0 : ℚ := MAX_X_DISTANCE / ((numCols : ℚ) - 1)
    if x0 - KERF < MIN_X_SPACING then
      .error ("Too many columns; reduce " ++ xName ++ " count")
    else if MAX_X_SPACING < x0 then .ok MAX_X_SPACING
    else .ok x0

/-- Row-spacing computation of `TestParams.__init__` (lines 401-411):
`yIncr = 0` for fewer than two rows, otherwise
`(MAX_Y_DISTANCE - lineHeight)/(numRows-1)`, failing when
`yIncr - lineHeight < MIN_Y_SPACING` and replacing `yIncr` by
`lineHeight + MAX_Y_SPACING` when it exceeds `MAX_Y_SPACING`
(the source's message spells "reduct"). -/
def planYIncr (numRows : ℤ) (lineHeight : ℚ) (yName : String) : Except String ℚ :=
  if numRows < 2 then .ok 0
  else
    let y0 : ℚ := (MAX_Y_DISTANCE - lineHeight) / ((numRows : ℚ) - 1)
    if y0 - lineHeight < MIN_Y_SPACING then
      .error ("Too many rows; reduct count of " ++ yName)
    else if MAX_Y_SPACING < y0 then .ok (lineHeight + MAX_Y_SPACING)
    else .ok y0

/-- `self.xDim.name` / `self.yDim.name` as used in the spacing error
messages: the name of the selected axis dimension (all constructed
dimensions carry the name `"UNINITIALIZED"`, see `Dimension`). -/
def axisName (s p d : Dimension) : Option DimId → String
  | some i => (dimSelect s p d i).name
  | none => "UNINITIALIZED"

/-- The planner state built by `TestParams.__init__`. -/
structure TestParams where
  speed : Dimension
  power : Dimension
  distance : Dimension
  lineHeight : ℚ
  xDim : Option DimId
  yDim : Option DimId
  numRows : ℤ
  numCols : ℤ
  xIncr : ℚ
  yIncr : ℚ
  width : ℚ
  height : ℚ
deriving DecidableEq

/-- `TestParams.__init__` (lines 349-421): construct the three bounded
dimensions, assign axes, compute spacings and the overall pattern
extent.  All constructor failures propagate. -/
def testParamsInit (spdStr pwrStr dstStr : String)
    (lineHeight : ℚ := DEF_LINE_HEIGHT) : Except String TestParams :=
  match speedDimInit spdStr with
  | .error e => .error e
  | .ok speed =>
    match powerDimInit pwrStr with
    | .error e => .error e
    | .ok power =>
      match distanceDimInit dstStr with
      | .error e => .error e
      | .ok distance =>
        match planAxes speed power distance with
        | .error e => .error e
        | .ok (xo, yo, numRows, numCols) =>
          match planXIncr numCols (axisName speed power distance xo) with
          | .error e => .error e
          | .ok xIncr =>
            match planYIncr numRows lineHeight (axisName speed power distance yo) with
            | .error e => .error e
            | .ok yIncr =>
              .ok { speed, power, distance, lineHeight
                    xDim := xo, yDim := yo, numRows, numCols, xIncr, yIncr
                    width := if 1 < numCols then xIncr * ((numCols : ℚ) - 1) + KERF else KERF
                    height := if 1 < numRows then
                        yIncr * ((numRows : ℚ) - 1) + lineHeight
                      else lineHeight }

/-- Read one of the three dimension attributes. -/
def TestParams.getDim (tp : TestParams) : DimId → Dimension
  | .speed => tp.speed
  | .power => tp.power
  | .distance => tp.distance

/-- Replace one of the three dimension attributes. -/
def TestParams.setDim (tp : TestParams) : DimId → Dimension → TestParams
  | .speed, d => { tp with speed := d }
  | .power, d => { tp with power := d }
  | .distance, d => { tp with distance := d }

/-- `TestParams.nextX` (lines 423-424): `self.xDim.next()`.  A `None`
column axis would be a Python `AttributeError`. -/
def TestParams.nextX (tp : TestParams) : Except String (ℚ × TestParams) :=
  match tp.xDim with
  | none => .error "AttributeError: xDim is None"
  | some i =>
    match (tp.getDim i).next with
    | .error e => .error e
    | .ok (v, d1) => .ok (v, tp.setDim i d1)

/-- `TestParams.nextY` (lines 426-428): `self.xDim.reset()` then
`self.yDim.next()`. -/
def TestParams.nextY (tp : TestParams) : Except String (ℚ × TestParams) :=
  match tp.xDim, tp.yDim with
  | some i, some j =>
    let tp1 := tp.setDim i ((tp.getDim i).reset)
    match (tp1.getDim j).next with
    | .error e => .error e
    | .ok (v, d1) => .ok (v, tp1.setDim j d1)
  | _, _ => .error "AttributeError: xDim or yDim is None"

/-- The per-cell values the `__main__` loop resolves for one cut:
`s = parms.speed.val`, `p = parms.power.val`, `z = parms.distance.val`. -/
structure Cell where
  speed : ℚ
  power : ℚ
  distance : ℚ
deriving DecidableEq

/-- The values the current planner state resolves for a cut. -/
def cellOf (tp : TestParams) : Cell :=
  ⟨tp.speed.val, tp.power.val, tp.distance.val⟩

/-- Inner column loop of the `__main__` traversal (lines 562-587),
parameterized by the number of remaining columns: emit the cell, and call
`nextX` after every column except the last. -/
def doCols : ℕ → TestParams → Except String (List Cell × TestParams)
  | 0, tp => .ok ([], tp)
  | n + 1, tp =>
    let c := cellOf tp
    if n = 0 then .ok ([c], tp)
    else
      match tp.nextX with
      | .error e => .error e
      | .ok (_, tp1) =>
        match doCols n tp1 with
        | .error e => .error e
        | .ok (cs, tp2) => .ok (c :: cs, tp2)

/-- Outer row loop of the `__main__` traversal (lines 558-601),
parameterized by the number of remaining rows: run a full column pass,
and call `nextY` after every row except the last. -/
def doRows : ℕ → TestParams → Except String (List Cell × TestParams)
  | 0, tp => .ok ([], tp)
  | n + 1, tp =>
    match doCols tp.numCols.toNat tp with
    | .error e => .error e
    | .ok (cs, tp1) =>
      if n = 0 then .ok (cs, tp1)
      else
        match tp1.nextY with
        | .error e => .error e
        | .ok (_, tp2) =>
          match doRows n tp2 with
          | .error e => .error e
          | .ok (rest, tp3) => .ok (cs ++ rest, tp3)

/-- The full cell traversal of `__main__`:
`for rowNum in xrange(numRows): for colNum in xrange(numCols): ...` -/
def cellTraversal (tp : TestParams) : Except String (List Cell × TestParams) :=
  doRows tp.numRows.toNat tp

/-- The variable dimensions of a constructed planner state, tagged, in
the fixed attribute order speed, power, distance (`self.varDims`). -/
def varPairsOf (tp : TestParams) : List (DimId × Dimension) :=
  [(DimId.speed, tp.speed), (DimId.power, tp.power),
    (DimId.distance, tp.distance)].filter (fun q => !q.2.fixed)

/-- Equality of all the immutable fields of a `Dimension` (everything but
the `indx`/`val` cursor), which `next` and `reset` preserve. -/
def shapeEq (a b : Dimension) : Prop :=
  b.name = a.name ∧ b.minVal = a.minVal ∧ b.maxVal = a.maxVal ∧
  b.count = a.count ∧ b.incr = a.incr ∧ b.fixed = a.fixed

/-- A default planner state, used only as the `getD` fallback when
naming the result of a concrete successful construction. -/
def dummyTP : TestParams :=
  { speed := dimInitCore 0 0 1, power := dimInitCore 0 0 1
    distance := dimInitCore 0 0 1, lineHeight := 0
    xDim := none, yDim := none, numRows := 1, numCols := 1
    xIncr := 0, yIncr := 0, width := 0, height := 0 }

/-- The planner state of a successful concrete construction. -/
def tpOf (spdStr pwrStr dstStr : String) (lh : ℚ := DEF_LINE_HEIGHT) : TestParams :=
  (testParamsInit spdStr pwrStr dstStr lh).toOption.getD dummyTP

/-- Decidable equality on `Except`, so that concrete runs of the
embedded constructors can be checked by `decide`. -/
instance {e a : Type} [DecidableEq e] [DecidableEq a] : DecidableEq (Except e a) := fun x y =>
  match x, y with
  | .error u, .error v =>
    if h : u = v then .isTrue (by rw [h]) else .isFalse (by simp [h])
  | .ok u, .ok v =>
    if h : u = v then .isTrue (by rw [h]) else .isFalse (by simp [h])
  | .error _, .ok _ => .isFalse (by simp)
  | .ok _, .error _ => .isFalse (by simp)

/-! ## Helper lemmas about `Dimension` -/

theorem shapeEq_refl (a : Dimension) : shapeEq a a := by
  simp [shapeEq]

theorem shapeEq_trans {a b c : Dimension} (h1 : shapeEq a b) (h2 : shapeEq b c) :
    shapeEq a c :=
  ⟨h2.1.trans h1.1, h2.2.1.trans h1.2.1, h2.2.2.1.trans h1.2.2.1,
    h2.2.2.2.1.trans h1.2.2.2.1, h2.2.2.2.2.1.trans h1.2.2.2.2.1,
    h2.2.2.2.2.2.trans h1.2.2.2.2.2⟩

theorem next_fixed {d : Dimension} (h : d.fixed = true) :
    d.next = .ok (d.minVal, d) := by
  simp [Dimension.next, h]

theorem next_eq {d : Dimension} (h1 : d.fixed = false) (h2 : d.indx + 1 < d.count) :
    d.next = .ok (valAt d.minVal d.maxVal d.count (d.indx + 1),
      { d with indx := d.indx + 1
               val := valAt d.minVal d.maxVal d.count (d.indx + 1) }) := by
  unfold Dimension.next
  simp [h1]
  omega

theorem next_ok_cases {d : Dimension} {v : ℚ} {d' : Dimension}
    (h : d.next = .ok (v, d')) :
    shapeEq d d' ∧ (d.fixed = false → d'.indx = d.indx + 1) ∧
      (d.fixed = true → d' = d) := by
  cases hf : d.fixed with
  | true =>
    rw [next_fixed hf] at h
    simp only [Except.ok.injEq, Prod.mk.injEq] at h
    obtain ⟨-, rfl⟩ := h
    exact ⟨shapeEq_refl d, by simp [hf], fun _ => rfl⟩
  | false =>
    by_cases hc : d.indx + 1 < d.count
    · rw [next_eq hf hc] at h
      simp only [Except.ok.injEq, Prod.mk.injEq] at h
      obtain ⟨-, rfl⟩ := h
      refine ⟨by simp [shapeEq], fun _ => rfl, fun hft => by simp at hft⟩
    · exfalso
      unfold Dimension.next at h
      rw [hf] at h
      simp only [Bool.false_eq_true, if_false] at h
      rw [if_pos (by omega)] at h
      cases h

theorem nextN_ok_shape {d : Dimension} :
    ∀ {k : ℕ} {vs : List ℚ} {d' : Dimension},
      nextN k d = .ok (vs, d') → shapeEq d d' := by
  intro k
  induction k generalizing d with
  | zero =>
    intro vs d' h
    simp only [nextN, Except.ok.injEq, Prod.mk.injEq] at h
    obtain ⟨-, rfl⟩ := h
    exact shapeEq_refl d
  | succ n ih =>
    intro vs d' h
    cases h1 : d.next with
    | error e =>
      simp only [nextN, h1] at h
      exact Except.noConfusion h
    | ok r =>
      obtain ⟨v, d1⟩ := r
      cases h2 : nextN n d1 with
      | error e =>
        simp only [nextN, h1, h2] at h
        exact Except.noConfusion h
      | ok r2 =>
        obtain ⟨vs2, d2⟩ := r2
        simp only [nextN, h1, h2, Except.ok.injEq, Prod.mk.injEq] at h
        obtain ⟨-, rfl⟩ := h
        exact shapeEq_trans (next_ok_cases h1).1 (ih h2)

theorem nextN_ok_of_lt (n : ℕ) :
    ∀ (d : Dimension), d.fixed = false → d.indx + (n : ℤ) < d.count →
      ∃ d', nextN n d
          = .ok ((List.range n).map
              (fun i : ℕ => valAt d.minVal d.maxVal d.count (d.indx + 1 + (i : ℤ))), d')
        ∧ shapeEq d d' ∧ d'.indx = d.indx + n := by
  induction n with
  | zero =>
    intro d hf hlt
    exact ⟨d, by simp [nextN], shapeEq_refl d, by simp⟩
  | succ n ih =>
    intro d hf hlt
    have hlt1 : d.indx + 1 < d.count := by push_cast at hlt; omega
    obtain ⟨d', hN0, hsh0, hidx0⟩ :=
      ih { d with indx := d.indx + 1, val := valAt d.minVal d.maxVal d.count (d.indx + 1) }
        hf (show d.indx + 1 + (n : ℤ) < d.count by push_cast at hlt; omega)
    have hN : nextN n
          { d with indx := d.indx + 1, val := valAt d.minVal d.maxVal d.count (d.indx + 1) }
        = .ok ((List.range n).map
            (fun i : ℕ => valAt d.minVal d.maxVal d.count (d.indx + 1 + 1 + (i : ℤ))), d') := hN0
    have hidx : d'.indx = d.indx + 1 + n := hidx0
    have hsh : shapeEq d d' :=
      shapeEq_trans (show shapeEq d
        { d with indx := d.indx + 1, val := valAt d.minVal d.maxVal d.count (d.indx + 1) }
        by simp [shapeEq]) hsh0
    refine ⟨d', ?_, hsh, by rw [hidx]; push_cast; ring⟩
    have heval : nextN (n + 1) d
        = .ok (valAt d.minVal d.maxVal d.count (d.indx + 1)
            :: (List.range n).map
              (fun i : ℕ => valAt d.minVal d.maxVal d.count (d.indx + 1 + 1 + (i : ℤ))), d') := by
      rw [show nextN (n + 1) d = nextN (n + 1) d from rfl]
      simp only [nextN, next_eq hf hlt1, hN]
    have hlist : (valAt d.minVal d.maxVal d.count (d.indx + 1)
          :: (List.range n).map
            (fun i : ℕ => valAt d.minVal d.maxVal d.count (d.indx + 1 + 1 + (i : ℤ))))
        = (List.range (n + 1)).map
            (fun i : ℕ => valAt d.minVal d.maxVal d.count (d.indx + 1 + (i : ℤ))) := by
      rw [List.range_succ_eq_map, List.map_cons, List.map_map]
      refine List.cons_eq_cons.mpr ⟨by congr 1; push_cast; ring, ?_⟩
      apply List.map_congr_left
      intro i _
      show valAt d.minVal d.maxVal d.count (d.indx + 1 + 1 + (i : ℤ))
        = valAt d.minVal d.maxVal d.count (d.indx + 1 + ((Nat.succ i : ℕ) : ℤ))
      congr 1
      push_cast
      ring
    rw [heval, hlist]

theorem round2_lt_round2 {x y : ℚ} (h : x + 1 / 100 ≤ y) : round2 x < round2 y := by
  have hfl : round (x * 100) + 1 ≤ round (y * 100) := by
    rw [round_eq, round_eq]
    have hle : x * 100 + 1 / 2 + 1 ≤ y * 100 + 1 / 2 := by linarith
    calc ⌊x * 100 + 1 / 2⌋ + 1 = ⌊x * 100 + 1 / 2 + 1⌋ := (Int.floor_add_one _).symm
      _ ≤ ⌊y * 100 + 1 / 2⌋ := Int.floor_mono hle
  have hq : ((round (x * 100) : ℤ) : ℚ) + 1 ≤ ((round (y * 100) : ℤ) : ℚ) := by
    exact_mod_cast hfl
  unfold round2
  linarith

/-! ## Claim C1 -/

/-- **C1, counterexample.**  The claim says a well-formed input string
with `count = 0` fails with `InvalidRangeSpec`; in fact
`Dimension.__init__` has no `count` validation at all, so `"5:5,0"`
constructs successfully (with `count = 0`, classified fixed). -/
theorem c1_count_zero_succeeds :
    dimInit "5:5,0" = .ok
      { name := "UNINITIALIZED"
        minVal := 5
        maxVal := 5
        count := 0
        incr := 0
        fixed := true
        indx := 0
        val := 5 } := by
  simp [dimInit, parseTriple, splitOnChar, parseFloatStr, parseIntStr,
    stripSign, natOfDigits, digitVal, dimInitCore]

/-- **C1, amended.**  `Dimension.__init__` fails exactly on parse
failures (non-numeric, malformed pair); every successfully parsed triple
— including one with `count < 1` — constructs successfully. -/
theorem c1_fails_only_on_parse (s t : String) (mn mx : ℚ) (c : ℤ)
    (hp : parseTriple s = some (mn, mx, c)) (hc : c < 1)
    (ht : parseTriple t = none) :
    dimInit s = .ok (dimInitCore mn mx c)
      ∧ dimInit t = .error "invalid input string" := by
  constructor
  · simp [dimInit, hp]
  · simp [dimInit, ht]

/-- **C1, witness** for `c1_fails_only_on_parse` at `s = "1:2,0"`,
`t = "abc"`. -/
theorem c1_fails_only_on_parse_witness :
    dimInit "1:2,0" = .ok (dimInitCore 1 2 0)
      ∧ dimInit "abc" = .error "invalid input string" :=
  c1_fails_only_on_parse "1:2,0" "abc" 1 2 0
    (by simp [parseTriple, splitOnChar, parseFloatStr, parseIntStr,
      stripSign, natOfDigits, digitVal])
    (by norm_num)
    (by simp [parseTriple, splitOnChar])

/-! ## Claim C2 -/

/-- **C2, counterexample.**  For `power = "500:20000,3"` (max above the
10000.0 domain limit), construction fails with the message
`"Maximum power too high (> 0.0)"`: it names `0.0` — the power domain
*minimum*, because line 270 formats `TestParams.MIN_POWER` — rather than
the domain maximum `10000.0`, and it does not contain the offending
value `20000` (no bound message contains the offending value). -/
theorem c2_power_max_names_wrong_limit :
    powerDimInit "500:20000,3" = .error "Maximum power too high (> 0.0)" := by
  simp [powerDimInit, dimInit, parseTriple, splitOnChar, parseFloatStr,
    parseIntStr, stripSign, natOfDigits, digitVal, dimInitCore,
    MIN_POWER, MAX_POWER]
  norm_num

/-- **C2, amended.**  Each bounded constructor fails with
`InputArgumentError` stating which bound was violated and naming a
domain limit (never the offending value).  The limit named is the
correct one for that bound in five of the six messages — for distance
the effective maximum is `50.0`, the second of the two `MAX_Z_DISTANCE`
class-body assignments — while the power max-too-high message names the
power domain minimum `0.0` instead of the maximum. -/
theorem c2_bound_messages (s : String) (d : Dimension)
    (hd : dimInit s = .ok d) :
    (d.minVal < 100 → speedDimInit s = .error "Minimum speed to slow (< 100.0)")
    ∧ (¬d.minVal < 100 → 5000 < d.maxVal →
        speedDimInit s = .error "Maximum speed to fast (> 5000.0)")
    ∧ (d.minVal < 0 → powerDimInit s = .error "Minimum power too low (< 0.0)")
    ∧ (¬d.minVal < 0 → 10000 < d.maxVal →
        powerDimInit s = .error "Maximum power too high (> 0.0)")
    ∧ (d.minVal < 10 → distanceDimInit s = .error "Minimum distance too close (< 10.0)")
    ∧ (¬d.minVal < 10 → 50 < d.maxVal →
        distanceDimInit s = .error "Maximum distance too far (> 50.0)") := by
  refine ⟨?_, ?_, ?_, ?_, ?_, ?_⟩ <;> intros <;>
    simp_all [speedDimInit, powerDimInit, distanceDimInit, hd,
      MIN_XY_SPEED, MAX_XY_SPEED, MIN_POWER, MAX_POWER,
      MIN_Z_DISTANCE, MAX_Z_DISTANCE]

/-- **C2, witness** for `c2_bound_messages` at `s = "5:20000,2"`
(min 5, max 20000): below the speed and distance minima, above the
power maximum. -/
theorem c2_bound_messages_witness :
    speedDimInit "5:20000,2" = .error "Minimum speed to slow (< 100.0)"
    ∧ powerDimInit "5:20000,2" = .error "Maximum power too high (> 0.0)"
    ∧ distanceDimInit "5:20000,2" = .error "Minimum distance too close (< 10.0)" := by
  have h := c2_bound_messages "5:20000,2" (dimInitCore 5 20000 2)
    (by simp [dimInit, parseTriple, splitOnChar, parseFloatStr, parseIntStr,
      stripSign, natOfDigits, digitVal])
  refine ⟨h.1 (by norm_num [dimInitCore]),
    h.2.2.2.1 (by norm_num [dimInitCore]) (by norm_num [dimInitCore]),
    h.2.2.2.2.1 (by norm_num [dimInitCore])⟩

/-! ## Claim C4 -/

/-- **C4, counterexample.**  For the valid range `0:0.01` with
`count = 11` (step `0.001`), the first two `next()` values are both `0`
after rounding to two decimals, so the value sequence is not strictly
monotonic (Python: `round(0.001, 2) == round(0.002, 2) == 0.0`). -/
theorem c4_tiny_step_not_strict :
    (nextN 2 (dimInitCore 0 (1 / 100) 11)).toOption.map Prod.fst = some [0, 0]
      ∧ ¬ List.Chain' (fun a b : ℚ => a < b) [0, 0] := by
  constructor
  · norm_num [nextN, Dimension.next, dimInitCore, valAt, round2]
    norm_num [round_eq]
    exact ⟨_, rfl⟩
  · simp

/-- **C4, amended.**  For every valid range with `count > 1`, the values
of the `count - 1` calls of `next()` are
`round(minVal + index*(maxVal-minVal)/(count-1), 2)` recomputed from the
index, the final one being `maxVal` rounded to two decimals; and
*provided the per-step increment is at least `0.01` in absolute value*
the sequence is strictly monotonic towards `maxVal` (increasing for
`minVal < maxVal`, decreasing for `maxVal < minVal`). -/
theorem c4_values_monotonic (mn mx : ℚ) (c : ℤ) (hc : 1 < c)
    (hstep : 1 / 100 ≤ |(mx - mn) / ((c : ℚ) - 1)|) :
    ∃ d', nextN (c - 1).toNat (dimInitCore mn mx c)
        = .ok ((List.range (c - 1).toNat).map
            (fun i : ℕ => valAt mn mx c ((i : ℤ) + 1)), d')
      ∧ d'.indx = c - 1
      ∧ (mn < mx → ((List.range (c - 1).toNat).map
          (fun i : ℕ => valAt mn mx c ((i : ℤ) + 1))).Chain' (· < ·))
      ∧ (mx < mn → ((List.range (c - 1).toNat).map
          (fun i : ℕ => valAt mn mx c ((i : ℤ) + 1))).Chain' (fun a b => b < a))
      ∧ valAt mn mx c (c - 1) = round2 mx := by
  have hcq : (1 : ℚ) < (c : ℚ) := by exact_mod_cast hc
  have hc1 : ((c : ℚ) - 1) ≠ 0 := by linarith
  have hne : mn ≠ mx := by
    intro he
    rw [he] at hstep
    simp at hstep
    linarith
  have hf : (dimInitCore mn mx c).fixed = false := by
    simp [dimInitCore]
    exact ⟨by omega, hne⟩
  have htn : (((c - 1).toNat : ℕ) : ℤ) = c - 1 := Int.toNat_of_nonneg (by omega)
  obtain ⟨d', hN0, hsh, hidx0⟩ := nextN_ok_of_lt (c - 1).toNat (dimInitCore mn mx c) hf
    (show (0 : ℤ) + (((c - 1).toNat : ℕ) : ℤ) < c by rw [htn]; omega)
  have hN : nextN (c - 1).toNat (dimInitCore mn mx c)
      = .ok ((List.range (c - 1).toNat).map
          (fun i : ℕ => valAt mn mx c ((0 : ℤ) + 1 + (i : ℤ))), d') := hN0
  have hmap : (List.range (c - 1).toNat).map
        (fun i : ℕ => valAt mn mx c ((0 : ℤ) + 1 + (i : ℤ)))
      = (List.range (c - 1).toNat).map (fun i : ℕ => valAt mn mx c ((i : ℤ) + 1)) := by
    apply List.map_congr_left
    intro i _
    congr 1
    ring
  have hidx : d'.indx = c - 1 := by
    have h0 : d'.indx = (0 : ℤ) + (((c - 1).toNat : ℕ) : ℤ) := hidx0
    rw [h0, htn]
    ring
  have hchain : ∀ (r : ℚ → ℚ → Prop),
      (∀ k : ℕ, r (valAt mn mx c ((k : ℤ) + 1)) (valAt mn mx c (((k : ℤ) + 1) + 1))) →
      ((List.range (c - 1).toNat).map
        (fun i : ℕ => valAt mn mx c ((i : ℤ) + 1))).Chain' r := by
    intro r hr
    rw [List.chain'_map]
    cases hn : (c - 1).toNat with
    | zero => simp
    | succ m =>
      rw [List.chain'_range_succ]
      intro k _
      have harg : (((k + 1 : ℕ) : ℤ) + 1) = ((k : ℤ) + 1) + 1 := by push_cast; ring
      rw [harg]
      exact hr k
  refine ⟨d', by rw [hN, hmap], hidx, ?_, ?_, ?_⟩
  · intro hlt
    have hstpos : 0 < (mx - mn) / ((c : ℚ) - 1) := div_pos (by linarith) (by linarith)
    have hst : 1 / 100 ≤ (mx - mn) / ((c : ℚ) - 1) := by
      rwa [abs_of_pos hstpos] at hstep
    apply hchain
    intro k
    unfold valAt
    apply round2_lt_round2
    have hy : (((((k : ℤ) + 1) + 1 : ℤ) : ℚ) * ((mx - mn) / ((c : ℚ) - 1)) + mn)
        = ((((k : ℤ) + 1 : ℤ) : ℚ) * ((mx - mn) / ((c : ℚ) - 1)) + mn)
          + (mx - mn) / ((c : ℚ) - 1) := by push_cast; ring
    rw [hy]
    linarith
  · intro hgt
    have hstneg : (mx - mn) / ((c : ℚ) - 1) < 0 :=
      div_neg_of_neg_of_pos (by linarith) (by linarith)
    have hst : 1 / 100 ≤ -((mx - mn) / ((c : ℚ) - 1)) := by
      rwa [abs_of_neg hstneg] at hstep
    apply hchain
    intro k
    unfold valAt
    apply round2_lt_round2
    have hy : ((((k : ℤ) + 1 : ℤ) : ℚ) * ((mx - mn) / ((c : ℚ) - 1)) + mn)
        = (((((k : ℤ) + 1) + 1 : ℤ) : ℚ) * ((mx - mn) / ((c : ℚ) - 1)) + mn)
          + -((mx - mn) / ((c : ℚ) - 1)) := by push_cast; ring
    rw [hy]
    linarith
  · unfold valAt
    congr 1
    push_cast
    field_simp

/-- **C4, witness** for `c4_values_monotonic` at `(500, 1500, 3)`
(step 500). -/
theorem c4_values_monotonic_witness :
    ∃ d', nextN ((3 : ℤ) - 1).toNat (dimInitCore 500 1500 3)
        = .ok ((List.range ((3 : ℤ) - 1).toNat).map
            (fun i : ℕ => valAt 500 1500 3 ((i : ℤ) + 1)), d')
      ∧ d'.indx = (3 : ℤ) - 1
      ∧ ((500 : ℚ) < 1500 → ((List.range ((3 : ℤ) - 1).toNat).map
          (fun i : ℕ => valAt 500 1500 3 ((i : ℤ) + 1))).Chain' (· < ·))
      ∧ ((1500 : ℚ) < 500 → ((List.range ((3 : ℤ) - 1).toNat).map
          (fun i : ℕ => valAt 500 1500 3 ((i : ℤ) + 1))).Chain' (fun a b => b < a))
      ∧ valAt 500 1500 3 ((3 : ℤ) - 1) = round2 1500 :=
  c4_values_monotonic 500 1500 3 (by norm_num) (by norm_num)

/-! ## Claim C5 -/

/-- **C5.**  After any number of successful `next()` calls on a
constructed dimension, `reset()` restores exactly the freshly
constructed state, so the subsequent `next()` sequence is identical to
the one from construction. -/
theorem c5_reset_replays (mn mx : ℚ) (c : ℤ) (k j : ℕ) (vs : List ℚ)
    (d' : Dimension) (h : nextN k (dimInitCore mn mx c) = .ok (vs, d')) :
    nextN j d'.reset = nextN j (dimInitCore mn mx c) := by
  have hsh := nextN_ok_shape h
  have hre : d'.reset = dimInitCore mn mx c := by
    obtain ⟨h1, h2, h3, h4, h5, h6⟩ := hsh
    cases d'
    simp_all [Dimension.reset, dimInitCore]
  rw [hre]

/-- **C5, witness** for `c5_reset_replays` at `(500, 1500, 3)`, one
`next()` call, replaying one step. -/
theorem c5_reset_replays_witness :
    nextN 1 (Dimension.reset
      { name := "UNINITIALIZED"
        minVal := 500
        maxVal := 1500
        count := 3
        incr := 500
        fixed := false
        indx := 1
        val := 1000 })
      = nextN 1 (dimInitCore 500 1500 3) :=
  c5_reset_replays 500 1500 3 1 1 [1000] _
    (by norm_num [nextN, Dimension.next, dimInitCore, valAt, round2, round_eq])

/-! ## Helper lemmas about the planner -/

theorem planAxes_ok (s p d : Dimension) (xo yo : Option DimId) (nr nc : ℤ)
    (h : planAxes s p d = .ok (xo, yo, nr, nc)) :
    (xo = none → yo = none ∧ nr = 1 ∧ nc = 1)
    ∧ (∀ i, xo = some i → (dimSelect s p d i).fixed = false ∧ nc = (dimSelect s p d i).count)
    ∧ (yo = none → nr = 1)
    ∧ (∀ j, yo = some j → ∃ i, xo = some i ∧ i ≠ j ∧
        (dimSelect s p d j).fixed = false ∧ nr = (dimSelect s p d j).count) := by
  cases hs : s.fixed <;> cases hp : p.fixed <;> cases hd : d.fixed <;>
    simp [planAxes, hs, hp, hd, pyMaxByCount] at h
  case false.false.true =>
    by_cases hcmp : s.count < p.count <;> simp [hcmp] at h <;>
      obtain ⟨rfl, rfl, rfl, rfl⟩ := h
    · refine ⟨by simp, ?_, by simp, ?_⟩
      · intro i hi
        obtain rfl : DimId.power = i := by simpa using hi
        exact ⟨hp, rfl⟩
      · intro j hj
        obtain rfl : DimId.speed = j := by simpa using hj
        exact ⟨.power, rfl, by decide, hs, rfl⟩
    · refine ⟨by simp, ?_, by simp, ?_⟩
      · intro i hi
        obtain rfl : DimId.speed = i := by simpa using hi
        exact ⟨hs, rfl⟩
      · intro j hj
        obtain rfl : DimId.power = j := by simpa using hj
        exact ⟨.speed, rfl, by decide, hp, rfl⟩
  case false.true.false =>
    by_cases hcmp : s.count < d.count <;> simp [hcmp] at h <;>
      obtain ⟨rfl, rfl, rfl, rfl⟩ := h
    · refine ⟨by simp, ?_, by simp, ?_⟩
      · intro i hi
        obtain rfl : DimId.distance = i := by simpa using hi
        exact ⟨hd, rfl⟩
      · intro j hj
        obtain rfl : DimId.speed = j := by simpa using hj
        exact ⟨.distance, rfl, by decide, hs, rfl⟩
    · refine ⟨by simp, ?_, by simp, ?_⟩
      · intro i hi
        obtain rfl : DimId.speed = i := by simpa using hi
        exact ⟨hs, rfl⟩
      · intro j hj
        obtain rfl : DimId.distance = j := by simpa using hj
        exact ⟨.speed, rfl, by decide, hd, rfl⟩
  case true.false.false =>
    by_cases hcmp : p.count < d.count <;> simp [hcmp] at h <;>
      obtain ⟨rfl, rfl, rfl, rfl⟩ := h
    · refine ⟨by simp, ?_, by simp, ?_⟩
      · intro i hi
        obtain rfl : DimId.distance = i := by simpa using hi
        exact ⟨hd, rfl⟩
      · intro j hj
        obtain rfl : DimId.power = j := by simpa using hj
        exact ⟨.distance, rfl, by decide, hp, rfl⟩
    · refine ⟨by simp, ?_, by simp, ?_⟩
      · intro i hi
        obtain rfl : DimId.power = i := by simpa using hi
        exact ⟨hp, rfl⟩
      · intro j hj
        obtain rfl : DimId.distance = j := by simpa using hj
        exact ⟨.power, rfl, by decide, hd, rfl⟩
  case false.true.true =>
    obtain ⟨rfl, rfl, rfl, rfl⟩ := h
    refine ⟨by simp, ?_, by simp, by simp⟩
    intro i hi
    obtain rfl : DimId.speed = i := by simpa using hi
    exact ⟨hs, rfl⟩
  case true.false.true =>
    obtain ⟨rfl, rfl, rfl, rfl⟩ := h
    refine ⟨by simp, ?_, by simp, by simp⟩
    intro i hi
    obtain rfl : DimId.power = i := by simpa using hi
    exact ⟨hp, rfl⟩
  case true.true.false =>
    obtain ⟨rfl, rfl, rfl, rfl⟩ := h
    refine ⟨by simp, ?_, by simp, by simp⟩
    intro i hi
    obtain rfl : DimId.distance = i := by simpa using hi
    exact ⟨hd, rfl⟩
  case true.true.true =>
    obtain ⟨rfl, rfl, h1⟩ := h
    have hnr : nr = 1 := (congrArg Prod.fst h1).symm
    have hnc : nc = 1 := (congrArg Prod.snd h1).symm
    subst hnr
    subst hnc
    simp

theorem planAxes_two_var (s p d : Dimension) (xo yo : Option DimId) (nr nc : ℤ)
    (a b : DimId × Dimension)
    (h : planAxes s p d = .ok (xo, yo, nr, nc))
    (hv : ([(DimId.speed, s), (DimId.power, p),
        (DimId.distance, d)].filter (fun q => !q.2.fixed)) = [a, b]) :
    xo = some (if a.2.count < b.2.count then b else a).1
    ∧ yo = some (if a.2.count < b.2.count then a else b).1
    ∧ nc = (if a.2.count < b.2.count then b else a).2.count
    ∧ nr = (if a.2.count < b.2.count then a else b).2.count := by
  cases hs : s.fixed <;> cases hp : p.fixed <;> cases hd : d.fixed <;>
    simp [planAxes, hs, hp, hd, pyMaxByCount] at h <;>
    simp [hs, hp, hd] at hv
  case false.false.true =>
    obtain ⟨rfl, rfl⟩ := hv
    by_cases hcmp : s.count < p.count <;> simp [hcmp] at h ⊢ <;>
      obtain ⟨rfl, rfl, rfl, rfl⟩ := h <;> simp
  case false.true.false =>
    obtain ⟨rfl, rfl⟩ := hv
    by_cases hcmp : s.count < d.count <;> simp [hcmp] at h ⊢ <;>
      obtain ⟨rfl, rfl, rfl, rfl⟩ := h <;> simp
  case true.false.false =>
    obtain ⟨rfl, rfl⟩ := hv
    by_cases hcmp : p.count < d.count <;> simp [hcmp] at h ⊢ <;>
      obtain ⟨rfl, rfl, rfl, rfl⟩ := h <;> simp

theorem testParamsInit_ok {spd pwr dst : String} {lh : ℚ} {tp : TestParams}
    (h : testParamsInit spd pwr dst lh = .ok tp) :
    speedDimInit spd = .ok tp.speed
    ∧ powerDimInit pwr = .ok tp.power
    ∧ distanceDimInit dst = .ok tp.distance
    ∧ tp.lineHeight = lh
    ∧ planAxes tp.speed tp.power tp.distance
        = .ok (tp.xDim, tp.yDim, tp.numRows, tp.numCols)
    ∧ planXIncr tp.numCols (axisName tp.speed tp.power tp.distance tp.xDim) = .ok tp.xIncr
    ∧ planYIncr tp.numRows lh (axisName tp.speed tp.power tp.distance tp.yDim) = .ok tp.yIncr := by
  unfold testParamsInit at h
  split at h
  · exact Except.noConfusion h
  split at h
  · exact Except.noConfusion h
  split at h
  · exact Except.noConfusion h
  split at h
  · exact Except.noConfusion h
  split at h
  · exact Except.noConfusion h
  split at h
  · exact Except.noConfusion h
  obtain rfl := (Except.ok.inj h)
  refine ⟨?_, ?_, ?_, rfl, ?_, ?_, ?_⟩ <;> assumption

/-- `==` on rationals is propositional-equality decision, so `simp`
with `decide` can evaluate it on literals. -/
theorem rat_beq_eq (a b : ℚ) : (a == b) = decide (a = b) := rfl

/-- Concrete successful construction used by several witnesses:
speed 200:300 in 2 steps, power 500:1500 in 3 steps, distance fixed. -/
theorem tpA_ok : testParamsInit "200:300,2" "500:1500,3" "10:10,1" 20
    = .ok (tpOf "200:300,2" "500:1500,3" "10:10,1" 20) := by
  simp +decide [tpOf, testParamsInit, speedDimInit, powerDimInit, distanceDimInit,
    dimInit, parseTriple, splitOnChar, parseFloatStr, parseIntStr, stripSign,
    natOfDigits, digitVal, dimInitCore, planAxes, pyMaxByCount, planXIncr, planYIncr,
    axisName, dimSelect, MIN_XY_SPEED, MAX_XY_SPEED, MIN_POWER, MAX_POWER,
    MIN_Z_DISTANCE, MAX_Z_DISTANCE, MAX_X_DISTANCE, MAX_Y_DISTANCE, KERF,
    MIN_X_SPACING, MAX_X_SPACING, MIN_Y_SPACING, MAX_Y_SPACING]
  norm_num
  rfl

/-- Concrete successful construction with two variable dimensions of
equal step counts (speed 3, power 3), used by the C10 witness. -/
theorem tpB_ok : testParamsInit "200:300,3" "500:1500,3" "10:10,1" 20
    = .ok (tpOf "200:300,3" "500:1500,3" "10:10,1" 20) := by
  simp +decide [tpOf, testParamsInit, speedDimInit, powerDimInit, distanceDimInit,
    dimInit, parseTriple, splitOnChar, parseFloatStr, parseIntStr, stripSign,
    natOfDigits, digitVal, dimInitCore, planAxes, pyMaxByCount, planXIncr, planYIncr,
    axisName, dimSelect, MIN_XY_SPEED, MAX_XY_SPEED, MIN_POWER, MAX_POWER,
    MIN_Z_DISTANCE, MAX_Z_DISTANCE, MAX_X_DISTANCE, MAX_Y_DISTANCE, KERF,
    MIN_X_SPACING, MAX_X_SPACING, MIN_Y_SPACING, MAX_Y_SPACING]
  norm_num
  rfl

/-! ## Claim C3 -/

/-- **C3.**  For `rowCount ≥ 2` the row-spacing step computes
`ySpacing = (maxYTravel - lineHeight)/(rowCount - 1)`, fails with
`SpacingTooTight` exactly when `(ySpacing - lineHeight) < minYSpacing`,
and replaces `ySpacing` by `lineHeight + maxYSpacing` when it exceeds
`maxYSpacing`; a successfully constructed plan carries exactly that
(possibly clamped) spacing (`maxYTravel = 150`, `minYSpacing = 5`,
`maxYSpacing = 10`). -/
theorem c3_row_spacing (numRows : ℤ) (lh : ℚ) (nm : String)
    (spd pwr dst : String) (tp : TestParams)
    (h2 : 2 ≤ numRows) (hok : testParamsInit spd pwr dst lh = .ok tp) :
    ((MAX_Y_DISTANCE - lh) / ((numRows : ℚ) - 1) - lh < MIN_Y_SPACING →
      planYIncr numRows lh nm = .error ("Too many rows; reduct count of " ++ nm))
    ∧ (MIN_Y_SPACING ≤ (MAX_Y_DISTANCE - lh) / ((numRows : ℚ) - 1) - lh →
      planYIncr numRows lh nm
        = .ok (if MAX_Y_SPACING < (MAX_Y_DISTANCE - lh) / ((numRows : ℚ) - 1)
            then lh + MAX_Y_SPACING
            else (MAX_Y_DISTANCE - lh) / ((numRows : ℚ) - 1)))
    ∧ (tp.numRows = numRows →
        tp.yIncr = if MAX_Y_SPACING < (MAX_Y_DISTANCE - lh) / ((numRows : ℚ) - 1)
          then lh + MAX_Y_SPACING
          else (MAX_Y_DISTANCE - lh) / ((numRows : ℚ) - 1)) := by
  have hnot2 : ¬numRows < 2 := by omega
  refine ⟨?_, ?_, ?_⟩
  · intro hbad
    simp [planYIncr, hnot2, hbad]
  · intro hgood
    simp [planYIncr, hnot2, not_lt.mpr hgood]
    split_ifs <;> rfl
  · intro hr
    obtain ⟨-, -, -, -, -, -, hyi⟩ := testParamsInit_ok hok
    rw [hr] at hyi
    simp only [planYIncr, hnot2, if_false] at hyi
    by_cases hbad : (MAX_Y_DISTANCE - lh) / ((numRows : ℚ) - 1) - lh < MIN_Y_SPACING
    · rw [if_pos hbad] at hyi
      exact Except.noConfusion hyi
    · rw [if_neg hbad] at hyi
      split_ifs at hyi with hclamp
      · rw [if_pos hclamp]
        exact (Except.ok.inj hyi).symm
      · rw [if_neg hclamp]
        exact (Except.ok.inj hyi).symm

/-- **C3, witness** for `c3_row_spacing` at `numRows = 2`, `lh = 20`,
the constructed plan of `tpA_ok` (which has 2 rows and clamped spacing
`30 = lineHeight + maxYSpacing`). -/
theorem c3_row_spacing_witness :
    ((MAX_Y_DISTANCE - 20) / ((2 : ℤ) - 1 : ℚ) - 20 < MIN_Y_SPACING →
      planYIncr 2 20 "UNINITIALIZED"
        = .error ("Too many rows; reduct count of " ++ "UNINITIALIZED"))
    ∧ (MIN_Y_SPACING ≤ (MAX_Y_DISTANCE - 20) / ((2 : ℤ) - 1 : ℚ) - 20 →
      planYIncr 2 20 "UNINITIALIZED"
        = .ok (if MAX_Y_SPACING < (MAX_Y_DISTANCE - 20) / ((2 : ℤ) - 1 : ℚ)
            then 20 + MAX_Y_SPACING
            else (MAX_Y_DISTANCE - 20) / ((2 : ℤ) - 1 : ℚ)))
    ∧ ((tpOf "200:300,2" "500:1500,3" "10:10,1" 20).numRows = 2 →
        (tpOf "200:300,2" "500:1500,3" "10:10,1" 20).yIncr
          = if MAX_Y_SPACING < (MAX_Y_DISTANCE - 20) / ((2 : ℤ) - 1 : ℚ)
            then 20 + MAX_Y_SPACING
            else (MAX_Y_DISTANCE - 20) / ((2 : ℤ) - 1 : ℚ)) :=
  c3_row_spacing 2 20 "UNINITIALIZED" "200:300,2" "500:1500,3" "10:10,1"
    (tpOf "200:300,2" "500:1500,3" "10:10,1" 20) (by norm_num) tpA_ok

/-! ## Claim C7 -/

/-- **C7.**  For `columnCount > 1` the column-spacing step computes
`xSpacing = maxXTravel/(columnCount - 1)`, fails with `SpacingTooTight`
exactly when `(xSpacing - kerfWidth) < minXSpacing`, and clamps
`xSpacing` down to `maxXSpacing` when it exceeds it; a successfully
constructed plan carries exactly that (possibly clamped) spacing
(`maxXTravel = 150`, `kerfWidth = 0.2`, `minXSpacing = 1`,
`maxXSpacing = 10`). -/
theorem c7_column_spacing (numCols : ℤ) (nm : String)
    (spd pwr dst : String) (lh : ℚ) (tp : TestParams)
    (h1 : 1 < numCols) (hok : testParamsInit spd pwr dst lh = .ok tp) :
    (MAX_X_DISTANCE / ((numCols : ℚ) - 1) - KERF < MIN_X_SPACING →
      planXIncr numCols nm = .error ("Too many columns; reduce " ++ nm ++ " count"))
    ∧ (MIN_X_SPACING ≤ MAX_X_DISTANCE / ((numCols : ℚ) - 1) - KERF →
      planXIncr numCols nm
        = .ok (if MAX_X_SPACING < MAX_X_DISTANCE / ((numCols : ℚ) - 1)
            then MAX_X_SPACING
            else MAX_X_DISTANCE / ((numCols : ℚ) - 1)))
    ∧ (tp.numCols = numCols →
        tp.xIncr = if MAX_X_SPACING < MAX_X_DISTANCE / ((numCols : ℚ) - 1)
          then MAX_X_SPACING
          else MAX_X_DISTANCE / ((numCols : ℚ) - 1)) := by
  have hnot1 : ¬numCols ≤ 1 := by omega
  refine ⟨?_, ?_, ?_⟩
  · intro hbad
    simp [planXIncr, hnot1, hbad]
  · intro hgood
    simp [planXIncr, hnot1, not_lt.mpr hgood]
    split_ifs <;> rfl
  · intro hc
    obtain ⟨-, -, -, -, -, hxi, -⟩ := testParamsInit_ok hok
    rw [hc] at hxi
    simp only [planXIncr, hnot1, if_false] at hxi
    by_cases hbad : MAX_X_DISTANCE / ((numCols : ℚ) - 1) - KERF < MIN_X_SPACING
    · rw [if_pos hbad] at hxi
      exact Except.noConfusion hxi
    · rw [if_neg hbad] at hxi
      split_ifs at hxi with hclamp
      · rw [if_pos hclamp]
        exact (Except.ok.inj hxi).symm
      · rw [if_neg hclamp]
        exact (Except.ok.inj hxi).symm

/-- **C7, witness** for `c7_column_spacing` at `numCols = 3` and the
constructed plan of `tpA_ok` (3 columns, spacing 75 clamped to 10). -/
theorem c7_column_spacing_witness :
    (MAX_X_DISTANCE / ((3 : ℤ) - 1 : ℚ) - KERF < MIN_X_SPACING →
      planXIncr 3 "UNINITIALIZED"
        = .error ("Too many columns; reduce " ++ "UNINITIALIZED" ++ " count"))
    ∧ (MIN_X_SPACING ≤ MAX_X_DISTANCE / ((3 : ℤ) - 1 : ℚ) - KERF →
      planXIncr 3 "UNINITIALIZED"
        = .ok (if MAX_X_SPACING < MAX_X_DISTANCE / ((3 : ℤ) - 1 : ℚ)
            then MAX_X_SPACING
            else MAX_X_DISTANCE / ((3 : ℤ) - 1 : ℚ)))
    ∧ ((tpOf "200:300,2" "500:1500,3" "10:10,1" 20).numCols = 3 →
        (tpOf "200:300,2" "500:1500,3" "10:10,1" 20).xIncr
          = if MAX_X_SPACING < MAX_X_DISTANCE / ((3 : ℤ) - 1 : ℚ)
            then MAX_X_SPACING
            else MAX_X_DISTANCE / ((3 : ℤ) - 1 : ℚ)) :=
  c7_column_spacing 3 "UNINITIALIZED" "200:300,2" "500:1500,3" "10:10,1" 20
    (tpOf "200:300,2" "500:1500,3" "10:10,1" 20) (by norm_num) tpA_ok

/-! ## Claim C6 -/

/-- **C6.**  In a successfully constructed plan whose variable
parameters are exactly two with distinct step counts, the one with the
larger count is the column (X) axis and the other the row (Y) axis,
with `columnCount`/`rowCount` equal to their counts. -/
theorem c6_larger_count_is_column (spd pwr dst : String) (lh : ℚ)
    (tp : TestParams) (a b : DimId × Dimension)
    (hok : testParamsInit spd pwr dst lh = .ok tp)
    (hv : varPairsOf tp = [a, b])
    (hne : a.2.count ≠ b.2.count) :
    tp.xDim = some (if a.2.count < b.2.count then b else a).1
    ∧ tp.yDim = some (if a.2.count < b.2.count then a else b).1
    ∧ tp.numCols = max a.2.count b.2.count
    ∧ tp.numRows = min a.2.count b.2.count := by
  obtain ⟨-, -, -, -, hpa, -, -⟩ := testParamsInit_ok hok
  obtain ⟨hx, hy, hc, hr⟩ := planAxes_two_var tp.speed tp.power tp.distance
    tp.xDim tp.yDim tp.numRows tp.numCols a b hpa hv
  refine ⟨hx, hy, ?_, ?_⟩
  · rw [hc]
    split_ifs <;> omega
  · rw [hr]
    split_ifs <;> omega

/-- **C6, witness** for `c6_larger_count_is_column` at the plan of
`tpA_ok`: speed (count 2) and power (count 3) variable, so power is the
column axis with `columnCount = 3`, `rowCount = 2`. -/
theorem c6_larger_count_is_column_witness :
    (tpOf "200:300,2" "500:1500,3" "10:10,1" 20).xDim
      = some (if (dimInitCore 200 300 2).count < (dimInitCore 500 1500 3).count
          then (DimId.power, dimInitCore 500 1500 3)
          else (DimId.speed, dimInitCore 200 300 2)).1
    ∧ (tpOf "200:300,2" "500:1500,3" "10:10,1" 20).yDim
      = some (if (dimInitCore 200 300 2).count < (dimInitCore 500 1500 3).count
          then (DimId.speed, dimInitCore 200 300 2)
          else (DimId.power, dimInitCore 500 1500 3)).1
    ∧ (tpOf "200:300,2" "500:1500,3" "10:10,1" 20).numCols
      = max (dimInitCore 200 300 2).count (dimInitCore 500 1500 3).count
    ∧ (tpOf "200:300,2" "500:1500,3" "10:10,1" 20).numRows
      = min (dimInitCore 200 300 2).count (dimInitCore 500 1500 3).count :=
  c6_larger_count_is_column "200:300,2" "500:1500,3" "10:10,1" 20
    (tpOf "200:300,2" "500:1500,3" "10:10,1" 20)
    (DimId.speed, dimInitCore 200 300 2) (DimId.power, dimInitCore 500 1500 3)
    tpA_ok
    (by simp +decide [varPairsOf, tpOf, testParamsInit, speedDimInit, powerDimInit,
      distanceDimInit, dimInit, parseTriple, splitOnChar, parseFloatStr, parseIntStr,
      stripSign, natOfDigits, digitVal, dimInitCore, planAxes, pyMaxByCount,
      planXIncr, planYIncr, axisName, dimSelect, MIN_XY_SPEED, MAX_XY_SPEED,
      MIN_POWER, MAX_POWER, MIN_Z_DISTANCE, MAX_Z_DISTANCE, MAX_X_DISTANCE,
      MAX_Y_DISTANCE, KERF, MIN_X_SPACING, MAX_X_SPACING, MIN_Y_SPACING,
      MAX_Y_SPACING, Except.toOption, Option.getD, rat_beq_eq] <;> norm_num)
    (by norm_num [dimInitCore])

/-! ## Claim C10 -/

/-- **C10.**  In a successfully constructed plan whose variable
parameters are exactly two with equal step counts, the axis assignment
is deterministic: the first of the two in the fixed attribute order
speed, power, distance becomes the column (X) axis and the other the
row (Y) axis (Python's `max` keeps the first element among ties). -/
theorem c10_tie_first_in_order (spd pwr dst : String) (lh : ℚ)
    (tp : TestParams) (a b : DimId × Dimension)
    (hok : testParamsInit spd pwr dst lh = .ok tp)
    (hv : varPairsOf tp = [a, b])
    (heq : a.2.count = b.2.count) :
    tp.xDim = some a.1 ∧ tp.yDim = some b.1
    ∧ tp.numCols = a.2.count ∧ tp.numRows = b.2.count := by
  obtain ⟨-, -, -, -, hpa, -, -⟩ := testParamsInit_ok hok
  obtain ⟨hx, hy, hc, hr⟩ := planAxes_two_var tp.speed tp.power tp.distance
    tp.xDim tp.yDim tp.numRows tp.numCols a b hpa hv
  have hnlt : ¬a.2.count < b.2.count := by omega
  rw [if_neg hnlt] at hx hy hc hr
  exact ⟨hx, hy, hc, hr⟩

/-- **C10, witness** for `c10_tie_first_in_order` at the plan of
`tpB_ok`: speed and power both variable with count 3; speed (first in
order) becomes the column axis. -/
theorem c10_tie_first_in_order_witness :
    (tpOf "200:300,3" "500:1500,3" "10:10,1" 20).xDim = some DimId.speed
    ∧ (tpOf "200:300,3" "500:1500,3" "10:10,1" 20).yDim = some DimId.power
    ∧ (tpOf "200:300,3" "500:1500,3" "10:10,1" 20).numCols
      = (dimInitCore 200 300 3).count
    ∧ (tpOf "200:300,3" "500:1500,3" "10:10,1" 20).numRows
      = (dimInitCore 500 1500 3).count :=
  c10_tie_first_in_order "200:300,3" "500:1500,3" "10:10,1" 20
    (tpOf "200:300,3" "500:1500,3" "10:10,1" 20)
    (DimId.speed, dimInitCore 200 300 3) (DimId.power, dimInitCore 500 1500 3)
    tpB_ok
    (by simp +decide [varPairsOf, tpOf, testParamsInit, speedDimInit, powerDimInit,
      distanceDimInit, dimInit, parseTriple, splitOnChar, parseFloatStr, parseIntStr,
      stripSign, natOfDigits, digitVal, dimInitCore, planAxes, pyMaxByCount,
      planXIncr, planYIncr, axisName, dimSelect, MIN_XY_SPEED, MAX_XY_SPEED,
      MIN_POWER, MAX_POWER, MIN_Z_DISTANCE, MAX_Z_DISTANCE, MAX_X_DISTANCE,
      MAX_Y_DISTANCE, KERF, MIN_X_SPACING, MAX_X_SPACING, MIN_Y_SPACING,
      MAX_Y_SPACING, Except.toOption, Option.getD, rat_beq_eq] <;> norm_num)
    (by norm_num [dimInitCore])

/-! ## Claim C8 -/

/-- One-column inner loop, fully unfolded (`rfl` step lemma used to
evaluate concrete traversals). -/
theorem doCols_one (tp : TestParams) : doCols 1 tp = .ok ([cellOf tp], tp) := rfl
/-- Two-column inner loop, unfolded one step. -/
theorem doCols_two (tp : TestParams) : doCols 2 tp
    = match tp.nextX with
      | .error e => .error e
      | .ok (_, tp1) =>
        match doCols 1 tp1 with
        | .error e => .error e
        | .ok (cs, tp2) => .ok (cellOf tp :: cs, tp2) := rfl
/-- Three-column inner loop, unfolded one step. -/
theorem doCols_three (tp : TestParams) : doCols 3 tp
    = match tp.nextX with
      | .error e => .error e
      | .ok (_, tp1) =>
        match doCols 2 tp1 with
        | .error e => .error e
        | .ok (cs, tp2) => .ok (cellOf tp :: cs, tp2) := rfl
/-- Single-row outer loop, unfolded. -/
theorem doRows_one (tp : TestParams) : doRows 1 tp
    = match doCols tp.numCols.toNat tp with
      | .error e => .error e
      | .ok (cs, tp1) => .ok (cs, tp1) := rfl

set_option maxRecDepth 4000 in
/-- **C8.**  End-to-end example: for speed `"750:750,1"`,
power `"500:1500,3"`, distance `"10:10,1"`, the plan makes power the
column axis with `columnCount = 3` and `rowCount = 1`, and the traversal
visits exactly 3 cells with power values 500, 1000, 1500 in that order
while speed stays 750 and distance stays 10. -/
theorem c8_example_end_to_end :
    (testParamsInit "750:750,1" "500:1500,3" "10:10,1" 20).toOption.map
      (fun tp => (tp.xDim, tp.numRows, tp.numCols,
        (cellTraversal tp).toOption.map (fun r => r.1)))
    = some (some DimId.power, 1, 3,
        some [⟨750, 500, 10⟩, ⟨750, 1000, 10⟩, ⟨750, 1500, 10⟩]) := by
  simp +decide [testParamsInit, speedDimInit, powerDimInit, distanceDimInit,
    dimInit, parseTriple, splitOnChar, parseFloatStr, parseIntStr, stripSign,
    natOfDigits, digitVal, dimInitCore, planAxes, pyMaxByCount, planXIncr, planYIncr,
    axisName, dimSelect, MIN_XY_SPEED, MAX_XY_SPEED, MIN_POWER, MAX_POWER,
    MIN_Z_DISTANCE, MAX_Z_DISTANCE, MAX_X_DISTANCE, MAX_Y_DISTANCE, KERF,
    MIN_X_SPACING, MAX_X_SPACING, MIN_Y_SPACING, MAX_Y_SPACING,
    cellTraversal, doRows_one, doCols_three, doCols_two, doCols_one,
    TestParams.nextX, TestParams.nextY,
    TestParams.getDim, TestParams.setDim, cellOf, Dimension.next, Dimension.reset,
    valAt, round2, Except.toOption, Option.getD, rat_beq_eq]
  norm_num [round_eq]
  simp +decide [doRows_one, doCols_three, doCols_two, doCols_one,
    TestParams.nextX, TestParams.nextY, TestParams.getDim, TestParams.setDim,
    cellOf, Dimension.next, Dimension.reset, valAt, round2, rat_beq_eq]
  norm_num [round_eq]

/-! ## Claim C9 -/

theorem next_eq_advanced {d : Dimension} (h1 : d.fixed = false)
    (h2 : d.indx + 1 < d.count) :
    d.next = .ok (valAt d.minVal d.maxVal d.count (d.indx + 1), d.advanced) :=
  next_eq h1 h2

theorem doCols_step (n : ℕ) (tp : TestParams) : doCols (n + 2) tp
    = match tp.nextX with
      | .error e => .error e
      | .ok (_, tp1) =>
        match doCols (n + 1) tp1 with
        | .error e => .error e
        | .ok (cs, tp2) => .ok (cellOf tp :: cs, tp2) := rfl

theorem doRows_step (m : ℕ) (tp : TestParams) : doRows (m + 2) tp
    = match doCols tp.numCols.toNat tp with
      | .error e => .error e
      | .ok (cs, tp1) =>
        match tp1.nextY with
        | .error e => .error e
        | .ok (_, tp2) =>
          match doRows (m + 1) tp2 with
          | .error e => .error e
          | .ok (rest, tp3) => .ok (cs ++ rest, tp3) := rfl

theorem getDim_setDim (tp : TestParams) (i j : DimId) (d : Dimension) :
    (tp.setDim i d).getDim j = if j = i then d else tp.getDim j := by
  cases i <;> cases j <;> simp [TestParams.setDim, TestParams.getDim]

theorem setDim_config (tp : TestParams) (i : DimId) (d : Dimension) :
    (tp.setDim i d).xDim = tp.xDim ∧ (tp.setDim i d).yDim = tp.yDim
    ∧ (tp.setDim i d).numRows = tp.numRows ∧ (tp.setDim i d).numCols = tp.numCols := by
  cases i <;> simp [TestParams.setDim]

theorem getDim_dimSelect (tp : TestParams) (i : DimId) :
    dimSelect tp.speed tp.power tp.distance i = tp.getDim i := by
  cases i <;> rfl

theorem doCols_ok (i : DimId) (n : ℕ) : ∀ (tp : TestParams),
    tp.xDim = some i →
    (tp.getDim i).fixed = false →
    (tp.getDim i).indx + (n : ℤ) < (tp.getDim i).count →
    ∃ cs tp', doCols (n + 1) tp = .ok (cs, tp')
      ∧ tp'.xDim = tp.xDim ∧ tp'.yDim = tp.yDim
      ∧ tp'.numRows = tp.numRows ∧ tp'.numCols = tp.numCols
      ∧ (∀ j, j ≠ i → tp'.getDim j = tp.getDim j)
      ∧ shapeEq (tp.getDim i) (tp'.getDim i) := by
  induction n with
  | zero =>
    intro tp hx hf hlt
    exact ⟨[cellOf tp], tp, doCols_one tp, rfl, rfl, rfl, rfl,
      fun j _ => rfl, shapeEq_refl _⟩
  | succ n ih =>
    intro tp hx hf hlt
    have hlt1 : (tp.getDim i).indx + 1 < (tp.getDim i).count := by
      push_cast at hlt; omega
    have hnx : tp.nextX = .ok
        (valAt (tp.getDim i).minVal (tp.getDim i).maxVal (tp.getDim i).count
          ((tp.getDim i).indx + 1),
        tp.setDim i (tp.getDim i).advanced) := by
      simp only [TestParams.nextX, hx, next_eq_advanced hf hlt1]
    have hgd1 : (tp.setDim i (tp.getDim i).advanced).getDim i
        = (tp.getDim i).advanced := by
      rw [getDim_setDim]
      simp
    obtain ⟨cs, tp2, hrun, hx2, hy2, hr2, hc2, hoth2, hsh2⟩ :=
      ih (tp.setDim i (tp.getDim i).advanced)
        (by rw [(setDim_config tp i _).1]; exact hx)
        (by rw [hgd1]; exact hf)
        (by rw [hgd1]
            show (tp.getDim i).indx + 1 + (n : ℤ) < (tp.getDim i).count
            push_cast at hlt; omega)
    refine ⟨cellOf tp :: cs, tp2, ?_, ?_, ?_, ?_, ?_, ?_, ?_⟩
    · show doCols (n + 2) tp = .ok (cellOf tp :: cs, tp2)
      rw [doCols_step n tp]
      simp only [hnx, hrun]
    · rw [hx2, (setDim_config tp i _).1]
    · rw [hy2, (setDim_config tp i _).2.1]
    · rw [hr2, (setDim_config tp i _).2.2.1]
    · rw [hc2, (setDim_config tp i _).2.2.2]
    · intro j hj
      rw [hoth2 j hj, getDim_setDim, if_neg hj]
    · refine shapeEq_trans ?_ (by rw [hgd1] at hsh2; exact hsh2)
      simp [Dimension.advanced, shapeEq]

theorem doColsPass_ok (tp : TestParams)
    (hx : ∀ i, tp.xDim = some i → (tp.getDim i).fixed = false
      ∧ (tp.getDim i).indx = 0 ∧ (tp.getDim i).count ≠ 1
      ∧ tp.numCols = (tp.getDim i).count)
    (hnone : tp.xDim = none → tp.numCols ≤ 1) :
    ∃ cs tp', doCols tp.numCols.toNat tp = .ok (cs, tp')
      ∧ tp'.xDim = tp.xDim ∧ tp'.yDim = tp.yDim
      ∧ tp'.numRows = tp.numRows ∧ tp'.numCols = tp.numCols
      ∧ (∀ j, tp.xDim ≠ some j → tp'.getDim j = tp.getDim j)
      ∧ (∀ i, tp.xDim = some i → shapeEq (tp.getDim i) (tp'.getDim i)) := by
  by_cases h0 : tp.numCols ≤ 0
  · have ht : tp.numCols.toNat = 0 := by omega
    rw [ht]
    exact ⟨[], tp, rfl, rfl, rfl, rfl, rfl, fun j _ => rfl, fun i _ => shapeEq_refl _⟩
  · cases hxd : tp.xDim with
    | none =>
      have h1 : tp.numCols ≤ 1 := hnone hxd
      have ht : tp.numCols.toNat = 1 := by omega
      rw [ht]
      exact ⟨[cellOf tp], tp, doCols_one tp, hxd, rfl, rfl, rfl,
        fun j _ => rfl, fun i _ => shapeEq_refl _⟩
    | some i =>
      obtain ⟨hf, hi0, hne1, hcols⟩ := hx i hxd
      have hge2 : 2 ≤ tp.numCols := by
        rcases lt_or_le tp.numCols 2 with hlt2 | h
        · exfalso
          omega
        · exact h
      have ht : tp.numCols.toNat = (tp.numCols.toNat - 1) + 1 := by omega
      obtain ⟨cs, tp', hrun, hxe, hye, hre, hce, hoth, hsh⟩ :=
        doCols_ok i (tp.numCols.toNat - 1) tp hxd hf
          (by rw [hi0]; omega)
      rw [ht]
      refine ⟨cs, tp', hrun, hxe.trans hxd, hye, hre, hce, ?_, ?_⟩
      · intro j hj
        refine hoth j ?_
        intro he
        exact hj (by rw [he])
      · intro i' hi'
        obtain rfl : i = i' := Option.some.inj hi'
        exact hsh

theorem doRows_ok (m : ℕ) : ∀ (tp : TestParams) (i j : DimId), i ≠ j →
    tp.xDim = some i → tp.yDim = some j →
    (tp.getDim i).fixed = false → (tp.getDim i).indx = 0 →
    (tp.getDim i).count ≠ 1 → tp.numCols = (tp.getDim i).count →
    (tp.getDim j).fixed = false →
    (tp.getDim j).indx + (m : ℤ) < (tp.getDim j).count →
    ∃ cs tp', doRows (m + 1) tp = .ok (cs, tp') := by
  induction m with
  | zero =>
    intro tp i j hij hx hy hfx hix hnex hcols hfy hlt
    have hxhyp : ∀ i', tp.xDim = some i' → (tp.getDim i').fixed = false
        ∧ (tp.getDim i').indx = 0 ∧ (tp.getDim i').count ≠ 1
        ∧ tp.numCols = (tp.getDim i').count := by
      intro i' hxi'
      rw [hx] at hxi'
      obtain rfl : i = i' := Option.some.inj hxi'
      exact ⟨hfx, hix, hnex, hcols⟩
    have hnonehyp : tp.xDim = none → tp.numCols ≤ 1 := by
      intro hn
      rw [hx] at hn
      exact Option.noConfusion hn
    obtain ⟨cs, tp1, hrun, -⟩ := doColsPass_ok tp hxhyp hnonehyp
    refine ⟨cs, tp1, ?_⟩
    show doRows 1 tp = .ok (cs, tp1)
    rw [doRows_one tp, hrun]
  | succ m ih =>
    intro tp i j hij hx hy hfx hix hnex hcols hfy hlt
    have hxhyp : ∀ i', tp.xDim = some i' → (tp.getDim i').fixed = false
        ∧ (tp.getDim i').indx = 0 ∧ (tp.getDim i').count ≠ 1
        ∧ tp.numCols = (tp.getDim i').count := by
      intro i' hxi'
      rw [hx] at hxi'
      obtain rfl : i = i' := Option.some.inj hxi'
      exact ⟨hfx, hix, hnex, hcols⟩
    have hnonehyp : tp.xDim = none → tp.numCols ≤ 1 := by
      intro hn
      rw [hx] at hn
      exact Option.noConfusion hn
    obtain ⟨cs, tp1, hrun, hx1, hy1, hr1, hc1, hoth1, hshx1⟩ :=
      doColsPass_ok tp hxhyp hnonehyp
    have hyj1 : tp1.getDim j = tp.getDim j := by
      refine hoth1 j ?_
      rw [hx]
      intro he
      exact hij (Option.some.inj he)
    have hshx : shapeEq (tp.getDim i) (tp1.getDim i) := hshx1 i hx
    have hx1s : tp1.xDim = some i := hx1.trans hx
    have hy1s : tp1.yDim = some j := hy1.trans hy
    have hylt1 : (tp.getDim j).indx + 1 < (tp.getDim j).count := by
      push_cast at hlt; omega
    have hgdj2 : ((tp1.setDim i ((tp1.getDim i).reset)).getDim j) = tp.getDim j := by
      rw [getDim_setDim, if_neg (Ne.symm hij), hyj1]
    have hny : tp1.nextY = .ok
        (valAt (tp.getDim j).minVal (tp.getDim j).maxVal (tp.getDim j).count
          ((tp.getDim j).indx + 1),
        (tp1.setDim i ((tp1.getDim i).reset)).setDim j ((tp.getDim j).advanced)) := by
      have hnexty : ((tp1.setDim i ((tp1.getDim i).reset)).getDim j).next
          = .ok (valAt (tp.getDim j).minVal (tp.getDim j).maxVal (tp.getDim j).count
              ((tp.getDim j).indx + 1), (tp.getDim j).advanced) := by
        rw [hgdj2]
        exact next_eq_advanced hfy hylt1
      simp only [TestParams.nextY, hx1s, hy1s, hnexty]
    -- invariants for the next row block
    have hx2 : ((tp1.setDim i ((tp1.getDim i).reset)).setDim j
        ((tp.getDim j).advanced)).xDim = some i := by
      rw [(setDim_config _ j _).1, (setDim_config _ i _).1, hx1s]
    have hy2 : ((tp1.setDim i ((tp1.getDim i).reset)).setDim j
        ((tp.getDim j).advanced)).yDim = some j := by
      rw [(setDim_config _ j _).2.1, (setDim_config _ i _).2.1, hy1s]
    have hgdi2 : ((tp1.setDim i ((tp1.getDim i).reset)).setDim j
        ((tp.getDim j).advanced)).getDim i = (tp1.getDim i).reset := by
      rw [getDim_setDim, if_neg hij, getDim_setDim, if_pos rfl]
    have hgdj3 : ((tp1.setDim i ((tp1.getDim i).reset)).setDim j
        ((tp.getDim j).advanced)).getDim j = (tp.getDim j).advanced := by
      rw [getDim_setDim, if_pos rfl]
    obtain ⟨hshn, hshmn, hshmx, hshc, hshi, hshf⟩ := hshx
    obtain ⟨cs2, tp3, hrun2⟩ := ih
      ((tp1.setDim i ((tp1.getDim i).reset)).setDim j ((tp.getDim j).advanced))
      i j hij hx2 hy2
      (by rw [hgdi2]; show (tp1.getDim i).fixed = false; rw [hshf]; exact hfx)
      (by rw [hgdi2]; rfl)
      (by rw [hgdi2]; show (tp1.getDim i).count ≠ 1; rw [hshc]; exact hnex)
      (by rw [hgdi2, (setDim_config _ j _).2.2.2, (setDim_config _ i _).2.2.2, hc1]
          show tp.numCols = (tp1.getDim i).count
          rw [hshc]
          exact hcols)
      (by rw [hgdj3]; exact hfy)
      (by rw [hgdj3]
          show (tp.getDim j).indx + 1 + (m : ℤ) < (tp.getDim j).count
          push_cast at hlt; omega)
    refine ⟨cs ++ cs2, tp3, ?_⟩
    show doRows (m + 2) tp = .ok (cs ++ cs2, tp3)
    rw [doRows_step m tp]
    simp only [hrun, hny, hrun2]

theorem dimInit_ok_fields {s : String} {d : Dimension} (h : dimInit s = .ok d) :
    d.indx = 0 ∧ d.val = d.minVal
    ∧ d.fixed = (d.count == 1 || d.minVal == d.maxVal) := by
  unfold dimInit at h
  split at h
  · exact Except.noConfusion h
  · obtain rfl := Except.ok.inj h
    simp [dimInitCore]

theorem speedDimInit_dimInit {s : String} {d : Dimension}
    (h : speedDimInit s = .ok d) : dimInit s = .ok d := by
  cases hdi : dimInit s with
  | error e =>
    unfold speedDimInit at h
    simp only [hdi] at h
    exact Except.noConfusion h
  | ok d0 =>
    unfold speedDimInit at h
    simp only [hdi] at h
    split_ifs at h
    obtain rfl := Except.ok.inj h
    rfl

theorem powerDimInit_dimInit {s : String} {d : Dimension}
    (h : powerDimInit s = .ok d) : dimInit s = .ok d := by
  cases hdi : dimInit s with
  | error e =>
    unfold powerDimInit at h
    simp only [hdi] at h
    exact Except.noConfusion h
  | ok d0 =>
    unfold powerDimInit at h
    simp only [hdi] at h
    split_ifs at h
    obtain rfl := Except.ok.inj h
    rfl

theorem distanceDimInit_dimInit {s : String} {d : Dimension}
    (h : distanceDimInit s = .ok d) : dimInit s = .ok d := by
  cases hdi : dimInit s with
  | error e =>
    unfold distanceDimInit at h
    simp only [hdi] at h
    exact Except.noConfusion h
  | ok d0 =>
    unfold distanceDimInit at h
    simp only [hdi] at h
    split_ifs at h
    obtain rfl := Except.ok.inj h
    rfl

/-- **C9.**  For every successfully constructed plan whose three
dimensions have `count ≥ 1`, the full cell traversal (rows of columns,
advancing the column axis after every column but the last, resetting the
column axis and advancing the row axis after every row but the last)
returns without error: the `ExhaustedRange` branch of `next()` is never
reached. -/
theorem c9_traversal_in_bounds (spd pwr dst : String) (lh : ℚ) (tp : TestParams)
    (hok : testParamsInit spd pwr dst lh = .ok tp)
    (h1 : 1 ≤ tp.speed.count) (h2 : 1 ≤ tp.power.count)
    (h3 : 1 ≤ tp.distance.count) :
    ∃ cs tp', cellTraversal tp = .ok (cs, tp') := by
  obtain ⟨hsd, hpd, hdd, -, hpa, -, -⟩ := testParamsInit_ok hok
  have hfs := dimInit_ok_fields (speedDimInit_dimInit hsd)
  have hfp := dimInit_ok_fields (powerDimInit_dimInit hpd)
  have hfd := dimInit_ok_fields (distanceDimInit_dimInit hdd)
  have hfields : ∀ i, (tp.getDim i).indx = 0 ∧ (tp.getDim i).fixed
      = ((tp.getDim i).count == 1 || (tp.getDim i).minVal == (tp.getDim i).maxVal) := by
    intro i
    cases i
    · exact ⟨hfs.1, hfs.2.2⟩
    · exact ⟨hfp.1, hfp.2.2⟩
    · exact ⟨hfd.1, hfd.2.2⟩
  have hcne : ∀ i, (tp.getDim i).fixed = false → (tp.getDim i).count ≠ 1 := by
    intro i hf
    have hb := (hfields i).2
    rw [hf] at hb
    have hc1 := (Bool.or_eq_false_iff.mp hb.symm).1
    exact beq_eq_false_iff_ne.mp hc1
  obtain ⟨hnonespec, hxspec, hynonespec, hyspec⟩ :=
    planAxes_ok tp.speed tp.power tp.distance tp.xDim tp.yDim
      tp.numRows tp.numCols hpa
  simp only [getDim_dimSelect] at hxspec hyspec
  have hxhyp : ∀ i, tp.xDim = some i → (tp.getDim i).fixed = false
      ∧ (tp.getDim i).indx = 0 ∧ (tp.getDim i).count ≠ 1
      ∧ tp.numCols = (tp.getDim i).count := by
    intro i hxi
    obtain ⟨hf, hc⟩ := hxspec i hxi
    exact ⟨hf, (hfields i).1, hcne i hf, hc⟩
  have hnonehyp : tp.xDim = none → tp.numCols ≤ 1 := by
    intro hn
    obtain ⟨-, -, hnc⟩ := hnonespec hn
    omega
  cases hyd : tp.yDim with
  | none =>
    have hnr : tp.numRows = 1 := hynonespec hyd
    obtain ⟨cs, tp1, hrun, -⟩ := doColsPass_ok tp hxhyp hnonehyp
    refine ⟨cs, tp1, ?_⟩
    unfold cellTraversal
    rw [hnr]
    rw [show ((1 : ℤ).toNat) = 1 from rfl, doRows_one tp, hrun]
  | some j =>
    obtain ⟨i, hxd, hij, hfy, hnr⟩ := hyspec j hyd
    by_cases hr0 : tp.numRows ≤ 0
    · have ht : tp.numRows.toNat = 0 := by omega
      refine ⟨[], tp, ?_⟩
      unfold cellTraversal
      rw [ht]
      rfl
    · have ht : tp.numRows.toNat = (tp.numRows.toNat - 1) + 1 := by omega
      obtain ⟨hfx, hix, hnex, hcols⟩ := hxhyp i hxd
      have hby : (tp.getDim j).indx + ((tp.numRows.toNat - 1 : ℕ) : ℤ)
          < (tp.getDim j).count := by
        rw [(hfields j).1, ← hnr]
        omega
      obtain ⟨cs, tp', hrun⟩ := doRows_ok (tp.numRows.toNat - 1) tp i j hij
        hxd hyd hfx hix hnex hcols hfy hby
      refine ⟨cs, tp', ?_⟩
      unfold cellTraversal
      rw [ht]
      exact hrun

/-- **C9, witness** for `c9_traversal_in_bounds` at the plan of
`tpA_ok` (2 rows by 3 columns). -/
theorem c9_traversal_in_bounds_witness :
    ∃ cs tp', cellTraversal (tpOf "200:300,2" "500:1500,3" "10:10,1" 20)
      = .ok (cs, tp') :=
  c9_traversal_in_bounds "200:300,2" "500:1500,3" "10:10,1" 20
    (tpOf "200:300,2" "500:1500,3" "10:10,1" 20) tpA_ok
    (by simp +decide [tpOf, testParamsInit, speedDimInit, powerDimInit, distanceDimInit,
      dimInit, parseTriple, splitOnChar, parseFloatStr, parseIntStr, stripSign,
      natOfDigits, digitVal, dimInitCore, planAxes, pyMaxByCount, planXIncr, planYIncr,
      axisName, dimSelect, MIN_XY_SPEED, MAX_XY_SPEED, MIN_POWER, MAX_POWER,
      MIN_Z_DISTANCE, MAX_Z_DISTANCE, MAX_X_DISTANCE, MAX_Y_DISTANCE, KERF,
      MIN_X_SPACING, MAX_X_SPACING, MIN_Y_SPACING, MAX_Y_SPACING,
      Except.toOption, Option.getD, rat_beq_eq]
        norm_num)
    (by simp +decide [tpOf, testParamsInit, speedDimInit, powerDimInit, distanceDimInit,
      dimInit, parseTriple, splitOnChar, parseFloatStr, parseIntStr, stripSign,
      natOfDigits, digitVal, dimInitCore, planAxes, pyMaxByCount, planXIncr, planYIncr,
      axisName, dimSelect, MIN_XY_SPEED, MAX_XY_SPEED, MIN_POWER, MAX_POWER,
      MIN_Z_DISTANCE, MAX_Z_DISTANCE, MAX_X_DISTANCE, MAX_Y_DISTANCE, KERF,
      MIN_X_SPACING, MAX_X_SPACING, MIN_Y_SPACING, MAX_Y_SPACING,
      Except.toOption, Option.getD, rat_beq_eq]
        norm_num)
    (by simp +decide [tpOf, testParamsInit, speedDimInit, powerDimInit, distanceDimInit,
      dimInit, parseTriple, splitOnChar, parseFloatStr, parseIntStr, stripSign,
      natOfDigits, digitVal, dimInitCore, planAxes, pyMaxByCount, planXIncr, planYIncr,
      axisName, dimSelect, MIN_XY_SPEED, MAX_XY_SPEED, MIN_POWER, MAX_POWER,
      MIN_Z_DISTANCE, MAX_Z_DISTANCE, MAX_X_DISTANCE, MAX_Y_DISTANCE, KERF,
      MIN_X_SPACING, MAX_X_SPACING, MIN_Y_SPACING, MAX_Y_SPACING,
      Except.toOption, Option.getD, rat_beq_eq]
        norm_num)

end LaserTest
